import Mathlib

/-!
Verification development for the sacp JSON-RPC / ACP protocol runtime.

The definitions below are a shallow embedding of the repository's Rust
sources (`sacp` crate): the envelope protocol of
`schema/proxy_protocol.rs`, the typed handlers and handler chain of
`jsonrpc/handlers.rs`, the role machinery of `schema/roles.rs` and
`role.rs`, the MCP service registry of `mcp_server/registry.rs` and the
default proxy of `proxy.rs`.  Types that the crate consumes from outside
the provided sources (the JSON value model, `UntypedMessage`, `Error`,
the request-context plumbing) are modelled from the specification, as
marked in their doc comments.
-/

/-- A JSON value (the `serde_json::Value` that parameter payloads are made
of).  Objects are association lists of fields in serialization order. -/
inductive Json where
  | null : Json
  | bool (b : Bool) : Json
  | num (n : Int) : Json
  | str (s : String) : Json
  | arr (elems : List Json) : Json
  | obj (fields : List (String × Json)) : Json
deriving Repr

/-- Field lookup in a JSON object (first match wins, like serde's
deserializer keyed on field names). Non-objects have no fields. -/
def Json.lookup (j : Json) (key : String) : Option Json :=
  match j with
  | .obj fields => go fields
  | _ => none
where
  go : List (String × Json) → Option Json
    | [] => none
    | (k, v) :: rest => if k = key then some v else go rest

/-- Modelled from the spec: `UntypedMessage` is not in the provided
sources.  "The canonical on-wire form: a method name (short string) and
an opaque parameter value (arbitrary JSON)." -/
structure UntypedMessage where
  method : String
  params : Json
deriving Repr

/-- Modelled from the spec: the `Error` type is not in the provided
sources.  "Either a success payload or an error (`code`, `message`,
optional structured `data`)." -/
structure Error where
  code : Int
  message : String
  data : Option Json
deriving Repr

/-- Modelled from the spec: `Error::method_not_found()`; the spec's
scenario 2 shows `{code:-32601, message:"Method not found"}`. -/
def Error.method_not_found : Error :=
  { code := -32601, message := "Method not found", data := none }

/-- Modelled from the spec: `Error::invalid_params()`; standard JSON-RPC
code -32602. -/
def Error.invalid_params : Error :=
  { code := -32602, message := "Invalid params", data := none }

/-- Modelled from the spec: `crate::util::internal_error`; standard
JSON-RPC code -32603, with the diagnostic text carried as `data`. -/
def Error.internal_error (msg : String) : Error :=
  { code := -32603, message := "Internal error", data := some (.str msg) }

/-- The `Error::with_data`: attach a `data` payload to an error. -/
def Error.with_data (e : Error) (d : Json) : Error :=
  { e with data := some d }

/-!
## Typed message dictionaries

A Rust typed message type (an implementor of `JrMessage`/`JrRequest`) is
embedded as a dictionary of its serialization and parse functions.
-/

/-- The interface a typed message type offers: serialization to the wire
form and method-keyed parsing (`JrMessage::to_untyped_message` /
`parse_request`). -/
structure MsgType (α : Type) where
  toUntyped : α → Except Error UntypedMessage
  parseRequest : String → Json → Option (Except Error α)

/-- A leaf (non-envelope) message type: a fixed method name, a payload
encoder (`serde_json::to_value`) and decoder (`crate::util::json_cast`).
The schema structs themselves live outside the provided sources; their
`JrMessage` impls in `schema/client_to_agent/requests.rs` and
`schema/agent_to_client/notifications.rs` all follow this shape. -/
structure LeafType (α : Type) where
  method : String
  encode : α → Json
  decode : Json → Except Error α

/-- The `to_untyped_message` for a leaf type: `UntypedMessage::new(&method, self)`. -/
def LeafType.toUntypedMessage (L : LeafType α) (a : α) : Except Error UntypedMessage :=
  .ok { method := L.method, params := L.encode a }

/-- The `parse_request` for a leaf type, as written in
`schema/client_to_agent/requests.rs`: `None` unless the method matches,
otherwise `Some(json_cast(params))`. -/
def LeafType.parse_request (L : LeafType α) (method : String) (params : Json) :
    Option (Except Error α) :=
  if method = L.method then some (L.decode params) else none

/-- Package a leaf type as a `MsgType`. -/
def LeafType.msgType (L : LeafType α) : MsgType α :=
  { toUntyped := L.toUntypedMessage, parseRequest := L.parse_request }

/-- Modelled from the spec: the `JrMessage` impl for `UntypedMessage`
itself is not in the provided sources.  Per the spec's erasure design
(§9, "erase to a uniform runtime interface"), an untyped message
serializes to itself and parses from any method. -/
def untypedMsgType : MsgType UntypedMessage :=
  { toUntyped := fun u => .ok u
    parseRequest := fun method params => some (.ok ⟨method, params⟩) }

/-!
## Envelope protocol (`schema/proxy_protocol.rs`)
-/

/-- The `const SUCCESSOR_REQUEST_METHOD` (proxy_protocol.rs line 12). -/
def SUCCESSOR_REQUEST_METHOD : String := "_proxy/successor/request"

/-- The `const SUCCESSOR_NOTIFICATION_METHOD` (proxy_protocol.rs line 74). -/
def SUCCESSOR_NOTIFICATION_METHOD : String := "_proxy/successor/notification"

/-- The `pub const METHOD_MCP_CONNECT_REQUEST` (proxy_protocol.rs line 144). -/
def METHOD_MCP_CONNECT_REQUEST : String := "_mcp/connect"

/-- The `pub const METHOD_MCP_DISCONNECT_NOTIFICATION` (proxy_protocol.rs line 208). -/
def METHOD_MCP_DISCONNECT_NOTIFICATION : String := "_mcp/disconnect"

/-- The `pub const METHOD_MCP_REQUEST` (proxy_protocol.rs line 252). -/
def METHOD_MCP_REQUEST : String := "_mcp/request"

/-- The `pub const METHOD_MCP_NOTIFICATION` (proxy_protocol.rs line 322). -/
def METHOD_MCP_NOTIFICATION : String := "_mcp/notification"

/-- The `SuccessorRequest<Req>`: a request being sent to the successor
component, carrying the embedded request (serde-flattened) and optional
metadata. -/
structure SuccessorRequest (α : Type) where
  request : α
  meta : Option Json
deriving Repr

/-- The `SuccessorNotification<N>`: the notification-side successor envelope. -/
structure SuccessorNotification (α : Type) where
  notification : α
  meta : Option Json
deriving Repr

/-- The serde `meta` field: `#[serde(skip_serializing_if = "Option::is_none")]`. -/
def metaField : Option Json → List (String × Json)
  | none => []
  | some v => [("meta", v)]

/-- Serialization of `SuccessorRequest<UntypedMessage>` /
`SuccessorNotification<UntypedMessage>` bodies: the embedded untyped
message is `#[serde(flatten)]`ed, so its `method` and `params` fields
appear directly in the envelope body, next to `meta`. -/
def successorBody (inner : UntypedMessage) (meta : Option Json) : Json :=
  .obj ([("method", .str inner.method), ("params", inner.params)] ++ metaField meta)

/-- The `json_cast::<_, SuccessorRequest<UntypedMessage>>(params)`: serde
deserialization of the envelope body.  A malformed body yields a
structured `InvalidParams` error (spec §4.1: "if the method matches but
the body is malformed, parse returns a structured `InvalidParams`
error"). -/
def castSuccessorUntyped (params : Json) : Except Error (UntypedMessage × Option Json) :=
  match params.lookup "method", params.lookup "params" with
  | some (.str m), some p => .ok (⟨m, p⟩, params.lookup "meta")
  | _, _ => .error Error.invalid_params

/-- The `SuccessorRequest::to_untyped_message` (proxy_protocol.rs lines 29-37):
serialize the embedded request, then wrap it under
`SUCCESSOR_REQUEST_METHOD`. -/
def SuccessorRequest.to_untyped_message (T : MsgType α) (s : SuccessorRequest α) :
    Except Error UntypedMessage :=
  match T.toUntyped s.request with
  | .error e => .error e
  | .ok inner => .ok { method := SUCCESSOR_REQUEST_METHOD, params := successorBody inner s.meta }

/-- The `SuccessorRequest::parse_request` (proxy_protocol.rs lines 43-60):
match the outer method, cast the body to
`SuccessorRequest<UntypedMessage>`, then resolve the embedded message
against the inner type. -/
def SuccessorRequest.parse_request (T : MsgType α) (method : String) (params : Json) :
    Option (Except Error (SuccessorRequest α)) :=
  if method = SUCCESSOR_REQUEST_METHOD then
    match castSuccessorUntyped params with
    | .ok (inner, meta) =>
      match T.parseRequest inner.method inner.params with
      | some (.ok request) => some (.ok ⟨request, meta⟩)
      | some (.error err) => some (.error err)
      | none => none
    | .error err => some (.error err)
  else
    none

/-- The `SuccessorNotification::to_untyped_message` (proxy_protocol.rs lines 91-99). -/
def SuccessorNotification.to_untyped_message (T : MsgType α) (s : SuccessorNotification α) :
    Except Error UntypedMessage :=
  match T.toUntyped s.notification with
  | .error e => .error e
  | .ok inner =>
    .ok { method := SUCCESSOR_NOTIFICATION_METHOD, params := successorBody inner s.meta }

/-- The `SuccessorNotification::parse_notification` (proxy_protocol.rs lines 112-134). -/
def SuccessorNotification.parse_notification (T : MsgType α) (method : String) (params : Json) :
    Option (Except Error (SuccessorNotification α)) :=
  if method = SUCCESSOR_NOTIFICATION_METHOD then
    match castSuccessorUntyped params with
    | .ok (inner, meta) =>
      match T.parseRequest inner.method inner.params with
      | some (.ok n) => some (.ok ⟨n, meta⟩)
      | some (.error err) => some (.error err)
      | none => none
    | .error err => some (.error err)
  else
    none

/-- The `McpOverAcpRequest<R>`: an MCP request tunnelled over ACP, keyed by
the connection id handed out by `_mcp/connect`. -/
structure McpOverAcpRequest (α : Type) where
  connection_id : String
  request : α
  meta : Option Json
deriving Repr

/-- Serialization of the `McpOverAcpRequest<UntypedMessage>` body:
`connection_id` is camelCased to `connectionId` by
`#[serde(rename_all = "camelCase")]`; the embedded untyped message is
flattened. -/
def mcpOverAcpBody (cid : String) (inner : UntypedMessage) (meta : Option Json) : Json :=
  .obj ([("connectionId", .str cid), ("method", .str inner.method), ("params", inner.params)]
    ++ metaField meta)

/-- The `json_cast::<_, McpOverAcpRequest<UntypedMessage>>(params)`. -/
def castMcpOverAcpUntyped (params : Json) :
    Except Error (String × UntypedMessage × Option Json) :=
  match params.lookup "connectionId", params.lookup "method", params.lookup "params" with
  | some (.str cid), some (.str m), some p => .ok (cid, ⟨m, p⟩, params.lookup "meta")
  | _, _, _ => .error Error.invalid_params

/-- The `McpOverAcpRequest::to_untyped_message` (proxy_protocol.rs lines 274-284). -/
def McpOverAcpRequest.to_untyped_message (T : MsgType α) (r : McpOverAcpRequest α) :
    Except Error UntypedMessage :=
  match T.toUntyped r.request with
  | .error e => .error e
  | .ok inner =>
    .ok { method := METHOD_MCP_REQUEST, params := mcpOverAcpBody r.connection_id inner r.meta }

/-- The `McpOverAcpRequest::parse_request` (proxy_protocol.rs lines 290-307). -/
def McpOverAcpRequest.parse_request (T : MsgType α) (method : String) (params : Json) :
    Option (Except Error (McpOverAcpRequest α)) :=
  if method = METHOD_MCP_REQUEST then
    match castMcpOverAcpUntyped params with
    | .ok (cid, inner, meta) =>
      match T.parseRequest inner.method inner.params with
      | some (.ok request) => some (.ok ⟨cid, request, meta⟩)
      | some (.error err) => some (.error err)
      | none => none
    | .error err => some (.error err)
  else
    none

/-!
## Handler chain (`jsonrpc/handlers.rs`)

`MessageCx` is the unit circulated through the chain (spec §3): a
request together with its one-shot response capability, or a
notification.  The request context is modelled as an opaque identifier.
-/

/-- Modelled from the spec: `MessageCx` is not in the provided sources.
"either `Request(message, request_cx)` or `Notification(message)`"; the
one-shot `request_cx` capability is modelled as an opaque identifier. -/
inductive MessageCx where
  | request (message : UntypedMessage) (requestCx : Nat)
  | notification (message : UntypedMessage)
deriving Repr

/-- The `Handled` as used by `jsonrpc/handlers.rs`: a handler either claims
a message (`Yes`) or returns it for the next handler together with a
retry bit (`No { message, retry }`). -/
inductive HandledR (α : Type) where
  | yes
  | no (message : α) (retry : Bool)
deriving Repr

/-- A handler's observable behaviour on one message: the
`handle_message(message, connection_cx) → Result<Handled>` entry point
(state and the connection context do not influence the claims below). -/
def Handler : Type :=
  MessageCx → Except Error (HandledR MessageCx)

/-- The `NullHandler::handle_message` (handlers.rs lines 37-47): always
`Handled::No { message, retry: false }`. -/
def NullHandler.handle_message : Handler :=
  fun message => .ok (.no message false)

/-- The `RequestHandler::handle_message` (handlers.rs lines 101-158), for a
passthrough (Counterpart-style) link, parameterized by the request
type's parse function and the user callback.  `Req::parse_message`
delegates to `parse_request` here, since a request type's
`parse_notification` is constantly `None` (proxy_protocol.rs lines
62-67 show the pattern).  The callback's effects are summarized by its
`Result<(), Error>` outcome. -/
def RequestHandler.handle_message (parse : String → Json → Option (Except Error α))
    (callback : α → Nat → Except Error Unit) : Handler :=
  fun messageCx =>
    match messageCx with
    | .request message requestCx =>
      match parse message.method message.params with
      | some (.ok req) =>
        match callback req requestCx with
        | .ok () => .ok .yes
        | .error e => .error e
      | some (.error err) => .error err
      | none => .ok (.no (.request message requestCx) false)
    | .notification _ => .ok (.no messageCx false)

/-- The `ChainedHandler::handle_message` (handlers.rs lines 716-742): try
the first handler; on `Handled::No`, try the second on the returned
message; the aggregate retry bit is the OR of both. -/
def ChainedHandler.handle_message (h1 h2 : Handler) : Handler :=
  fun message =>
    match h1 message with
    | .error e => .error e
    | .ok .yes => .ok .yes
    | .ok (.no message retry1) =>
      match h2 message with
      | .error e => .error e
      | .ok .yes => .ok .yes
      | .ok (.no message retry2) => .ok (.no message (retry1 || retry2))

/-- A chain `[h1, h2, …, null]`: handlers composed left-to-right with
`ChainedHandler`, wrapping the terminal `NullHandler`. -/
def chainHandlers : List Handler → Handler
  | [] => NullHandler.handle_message
  | h :: hs => ChainedHandler.handle_message h (chainHandlers hs)

/-- Follows the spec's words (§8, *Chain fall-through*): try each
handler in order on the message as it falls through; stop at the first
`Handled::Yes` (later handlers are not consulted); if none claims it,
return `Handled::No` with the OR of all handlers' retry bits. -/
def runChainSpec : List Handler → MessageCx → Bool → Except Error (HandledR MessageCx)
  | [], message, acc => .ok (.no message acc)
  | h :: hs, message, acc =>
    match h message with
    | .error e => .error e
    | .ok .yes => .ok .yes
    | .ok (.no message retry) => runChainSpec hs message (acc || retry)

/-!
## Role machinery (`role.rs`, `schema/roles.rs`)
-/

/-- The `Handled` as used by `schema/roles.rs`, `mcp_server/registry.rs` and
`proxy.rs` (the revision without the retry bit): `Yes` or `No(value)`. -/
inductive Handled (α : Type) where
  | yes
  | no (a : α)
deriving Repr

/-- The `SendsToRole<AcpAgent>::transform_request` for `AcpProxy`
(roles.rs lines 133-143): wrap the outgoing request in a
`SuccessorRequest` envelope with `meta: None`. -/
def AcpProxy.transform_request_to_agent (message : UntypedMessage) :
    Except Error UntypedMessage :=
  SuccessorRequest.to_untyped_message untypedMsgType { request := message, meta := none }

/-- The `SendsToRole<AcpAgent>::transform_notification` for `AcpProxy`
(roles.rs lines 145-155). -/
def AcpProxy.transform_notification_to_agent (message : UntypedMessage) :
    Except Error UntypedMessage :=
  SuccessorNotification.to_untyped_message untypedMsgType { notification := message, meta := none }

/-- Result type of the proxy's incoming unwrap (roles.rs
`ReceivesFromRole<AcpAgent, AcpAgent> for AcpProxy`): on `Handled::No`
the handler either fell through before unwrapping (left: the original
wire message) or after it (right: the re-wrapped typed envelope with
its request context). -/
inductive ProxyReceiveNo where
  | passthrough (message : MessageCx)
  | rewrappedRequest (envelope : SuccessorRequest UntypedMessage) (requestCx : Nat)
  | rewrappedNotification (envelope : SuccessorNotification UntypedMessage)
deriving Repr

/-- An inner handler as seen by the unwrap layer: it receives the
unwrapped message and may claim it, or return a (possibly modified)
message. -/
def InnerHandler : Type :=
  MessageCx → Except Error (Handled MessageCx)

/-- The `ReceivesFromRole<AcpAgent, AcpAgent>::receive_message` for
`AcpProxy` (roles.rs lines 237-281): parse the incoming message as a
`SuccessorRequest<UntypedMessage>` (resp. `SuccessorNotification`),
dispatch the embedded message to the handler, and on `Handled::No`
re-wrap the returned message in an envelope carrying the original
`meta`.  A message that is not a successor envelope falls through
(`MatchMessage … .done()`). -/
def AcpProxy.receive_message_from_agent (handler : InnerHandler) (messageCx : MessageCx) :
    Except Error (Handled ProxyReceiveNo) :=
  match messageCx with
  | .request message requestCx =>
    match SuccessorRequest.parse_request untypedMsgType message.method message.params with
    | none => .ok (.no (.passthrough messageCx))
    | some (.error e) => .error e
    | some (.ok envelope) =>
      match handler (.request envelope.request requestCx) with
      | .error e => .error e
      | .ok .yes => .ok .yes
      | .ok (.no (.request r cx)) =>
        .ok (.no (.rewrappedRequest { request := r, meta := envelope.meta } cx))
      | .ok (.no (.notification n)) =>
        -- `unreachable!()` in the source: an inner handler must return a
        -- request as a request.  Modelled as an internal error.
        .error (Error.internal_error (String.append "unreachable " n.method))
  | .notification message =>
    match SuccessorNotification.parse_notification untypedMsgType message.method message.params with
    | none => .ok (.no (.passthrough messageCx))
    | some (.error e) => .error e
    | some (.ok envelope) =>
      match handler (.notification envelope.notification) with
      | .error e => .error e
      | .ok .yes => .ok .yes
      | .ok (.no (.notification n)) =>
        .ok (.no (.rewrappedNotification { notification := n, meta := envelope.meta }))
      | .ok (.no (.request r _)) =>
        .error (Error.internal_error (String.append "unreachable " r.method))

/-- The `HasCounterpart::default_message_handler` (role.rs lines 62-68)
combined with the spec's engine policy (§4.4): an unclaimed request is
answered with `MethodNotFound` carrying the method string as `data`; an
unclaimed notification has no request context and is dropped silently
(modelled from the spec for the notification side). -/
def default_message_handler (messageCx : MessageCx) : Option (Nat × Error) :=
  match messageCx with
  | .request message requestCx =>
    some (requestCx, Error.method_not_found.with_data (.str message.method))
  | .notification _ => none

/-!
## MCP service registry (`mcp_server/registry.rs`)
-/

/-- The `RegisteredMcpServer` (registry.rs lines 538-543), minus the spawner
callback, which plays no role in the claims below. -/
structure RegisteredMcpServer where
  name : String
  url : String
deriving Repr

/-- The `McpServer` of the ACP schema, as constructed by
`RegisteredMcpServer::acp_mcp_server` (registry.rs lines 546-552); only
the `Http` variant is used by the registry. -/
inductive McpServer where
  | http (name : String) (url : String) (headers : List (String × String))
deriving Repr

/-- The `RegisteredMcpServer::acp_mcp_server` (registry.rs lines 546-552):
`McpServer::Http { name, url, headers: vec![] }`. -/
def RegisteredMcpServer.acp_mcp_server (s : RegisteredMcpServer) : McpServer :=
  .http s.name s.url []

/-- The `McpServiceRegistryData` (registry.rs lines 38-43): the name- and
url-keyed maps, modelled as association lists in insertion order
(the hash maps' lookup behaviour on the keys used here is identical).
The `connections` map plays no role in the claims below. -/
structure McpServiceRegistryData where
  registered_by_name : List (String × RegisteredMcpServer)
  registered_by_url : List (String × RegisteredMcpServer)
deriving Repr

/-- The `get_registered_server_by_name` (registry.rs lines 165-172). -/
def McpServiceRegistryData.get_registered_server_by_name
    (d : McpServiceRegistryData) (name : String) : Option RegisteredMcpServer :=
  d.registered_by_name.lookup name

/-- The `insert_registered_server` (registry.rs lines 157-163): insert the
record under both its name and its url. -/
def McpServiceRegistryData.insert_registered_server
    (d : McpServiceRegistryData) (s : RegisteredMcpServer) : McpServiceRegistryData :=
  { registered_by_name := (s.name, s) :: d.registered_by_name
    registered_by_url := (s.url, s) :: d.registered_by_url }

/-- The `add_mcp_server_internal` (registry.rs lines 134-155): reject a
duplicate name with an internal error, otherwise mint the `acp:<uuid>`
url and insert.  The fresh UUID v4 string is passed in explicitly. -/
def McpServiceRegistryData.add_mcp_server_internal
    (d : McpServiceRegistryData) (name : String) (uuid : String) :
    Except Error McpServiceRegistryData :=
  if (d.get_registered_server_by_name name).isSome then
    .error (Error.internal_error
      (String.append "Server with name " (String.append name " already exists")))
  else
    .ok (d.insert_registered_server
      { name := name, url := String.append "acp:" uuid })

/-- The `NewSessionRequest`, modelled with the field the registry touches
(`mcp_servers`) plus an opaque remainder standing for all other fields
of the schema struct (which lives outside the provided sources). -/
structure NewSessionRequest where
  mcp_servers : List McpServer
  rest : Json
deriving Repr

/-- The `add_registered_mcp_servers_to` (registry.rs lines 215-220): append
each registered server's `{name, url}` record to the request's
`mcp_servers` list (iterating the url-keyed map's values). -/
def McpServiceRegistryData.add_registered_mcp_servers_to
    (d : McpServiceRegistryData) (request : NewSessionRequest) : NewSessionRequest :=
  { request with
    mcp_servers :=
      request.mcp_servers ++ d.registered_by_url.map (fun kv => kv.2.acp_mcp_server) }

/-- The `handle_new_session_request` (registry.rs lines 432-450): add the
registered MCP servers into the `session/new` request and return the
modified request as `Handled::No` so subsequent handlers see it. -/
def McpServiceRegistryData.handle_new_session_request
    (d : McpServiceRegistryData) (request : NewSessionRequest) (requestCx : Nat) :
    Except Error (Handled (NewSessionRequest × Nat)) :=
  .ok (.no (d.add_registered_mcp_servers_to request, requestCx))

/-- The `handle_successor_request` (registry.rs lines 222-251): run `op` on
the embedded request; on `Handled::No` re-wrap the returned request in
a `SuccessorRequest` carrying the original envelope's `meta`
(`SuccessorRequest { request, ..successor_request }`). -/
def McpServiceRegistry.handle_successor_request
    (successor_request : SuccessorRequest α) (requestCx : Nat)
    (op : α → Nat → Except Error (Handled (α × Nat))) :
    Except Error (Handled (SuccessorRequest α × Nat)) :=
  match op successor_request.request requestCx with
  | .error e => .error e
  | .ok .yes => .ok .yes
  | .ok (.no (request, cx)) =>
    .ok (.no ({ request := request, meta := successor_request.meta }, cx))

/-!
## Default proxy handler (`proxy.rs`)
-/

/-- The `InitializeRequest`, modelled with the parts `proxy.rs` inspects:
the set of meta-capabilities plus an opaque remainder for the rest of
the schema struct (which lives outside the provided sources). -/
structure InitializeRequest where
  metaCapabilities : List String
  rest : Json
deriving Repr

/-- The `InitializeResponse`, modelled the same way. -/
structure InitializeResponse where
  metaCapabilities : List String
  rest : Json
deriving Repr

/-- The `Proxy` meta-capability marker passed to the
`MetaCapabilityExt` methods in `proxy.rs`. -/
def proxyCapability : String := "proxy"

/-- Modelled from the spec: `MetaCapabilityExt::has_meta_capability` is
not in the provided sources; membership in the request's set of
meta-capabilities. -/
def InitializeRequest.has_meta_capability (r : InitializeRequest) (c : String) : Bool :=
  r.metaCapabilities.contains c

/-- Modelled from the spec: `MetaCapabilityExt::remove_meta_capability`
is not in the provided sources; removal from the request's set of
meta-capabilities. -/
def InitializeRequest.remove_meta_capability (r : InitializeRequest) (c : String) :
    InitializeRequest :=
  { r with metaCapabilities := r.metaCapabilities.filter (fun x => x ≠ c) }

/-- Modelled from the spec: `MetaCapabilityExt::add_meta_capability` is
not in the provided sources; insertion into the response's set of
meta-capabilities. -/
def InitializeResponse.add_meta_capability (r : InitializeResponse) (c : String) :
    InitializeResponse :=
  { r with metaCapabilities := c :: r.metaCapabilities }

/-- What `ProxyHandler::forward_initialize` (proxy.rs lines 523-551)
does with an `initialize` request before any response arrives. -/
inductive ForwardInitialize where
  /-- The `request_cx.respond_with_error(…)`: answered locally, nothing forwarded. -/
  | respondError (e : Error)
  /-- The `send_request_to_successor(request)`: the given request forwarded
  downstream, its response bound to the original request context. -/
  | forwardToSuccessor (request : InitializeRequest)
deriving Repr

/-- The request-gating half of `ProxyHandler::forward_initialize`
(proxy.rs lines 523-551): without the `Proxy` meta-capability, respond
with `InvalidParams` and do not forward; with it, strip the capability
and forward to the successor. -/
def ProxyHandler.forward_initialize (request : InitializeRequest) : ForwardInitialize :=
  if ¬ request.has_meta_capability proxyCapability then
    .respondError (Error.invalid_params.with_data
      (.str "this command requires the proxy capability"))
  else
    .forwardToSuccessor (request.remove_meta_capability proxyCapability)

/-- The response half of `ProxyHandler::forward_initialize` (the
`await_when_result_received` continuation, proxy.rs lines 546-550): a
successful response has the `Proxy` capability added back before being
delivered upstream; an error response is passed through. -/
def ProxyHandler.initialize_result_responder
    (result : Except Error InitializeResponse) : Except Error InitializeResponse :=
  result.map (fun r => r.add_meta_capability proxyCapability)

/-- The side effects the default proxy handler can perform while
handling one message (proxy.rs lines 448-517). -/
inductive ProxyEffect where
  /-- The `request_cx.connection_cx().send_request(inner).forward_to_request_cx(request_cx)`:
  the unwrapped request re-sent toward the predecessor, its eventual
  response forwarded one-for-one to the original request context. -/
  | sendRequestToPredecessor (inner : UntypedMessage)
  /-- The `send_request_to_successor(request).forward_to_request_cx(request_cx)`:
  the request wrapped in a successor envelope and sent downstream, its
  response bound to the original request context. -/
  | sendRequestToSuccessor (wrapped : UntypedMessage)
  /-- The `request_cx.respond_with_error(e)` (from `forward_initialize`). -/
  | respondError (e : Error)
  /-- The `send_request_to_successor(request)` for a gated `initialize`
  (from `forward_initialize`), response re-capabilitied upstream. -/
  | forwardInitialize (request : InitializeRequest)
  /-- The `cx.send_notification(inner)`: unwrapped notification re-sent
  toward the predecessor. -/
  | notifyPredecessor (inner : UntypedMessage)
  /-- The `send_notification_to_successor(n)`: notification wrapped in a
  successor envelope and sent downstream. -/
  | notifySuccessor (wrapped : UntypedMessage)
deriving Repr

/-- The `JrCxExt::send_request_to_successor` (proxy.rs lines 179-188): wrap
in `SuccessorRequest { request, meta: None }` and send. -/
def send_request_to_successor (request : UntypedMessage) : Except Error UntypedMessage :=
  SuccessorRequest.to_untyped_message untypedMsgType { request := request, meta := none }

/-- The `JrCxExt::send_notification_to_successor` (proxy.rs lines 190-199). -/
def send_notification_to_successor (n : UntypedMessage) : Except Error UntypedMessage :=
  SuccessorNotification.to_untyped_message untypedMsgType { notification := n, meta := none }

/-- The `JrMessageHandler::handle_message` for `ProxyHandler` (proxy.rs
lines 448-517), parameterized by the `InitializeRequest` leaf codec
(the schema struct's serde impl lives outside the provided sources).
Returns the effects performed together with the `Handled` outcome. -/
def ProxyHandler.handle_message (initCodec : LeafType InitializeRequest)
    (messageCx : MessageCx) : Except Error (List ProxyEffect × Handled MessageCx) :=
  match messageCx with
  | .request message _requestCx =>
    -- A request from the successor: unwrap and re-send toward the predecessor.
    match SuccessorRequest.parse_request untypedMsgType message.method message.params with
    | some (.error e) => .error e
    | some (.ok envelope) => .ok ([.sendRequestToPredecessor envelope.request], .yes)
    | none =>
      -- `initialize`: gate on the proxy capability.
      match initCodec.parse_request message.method message.params with
      | some (.error e) => .error e
      | some (.ok request) =>
        match ProxyHandler.forward_initialize request with
        | .respondError e => .ok ([.respondError e], .yes)
        | .forwardToSuccessor r => .ok ([.forwardInitialize r], .yes)
      | none =>
        -- Any other request: wrap and send to the successor.
        match send_request_to_successor message with
        | .error e => .error e
        | .ok wrapped => .ok ([.sendRequestToSuccessor wrapped], .yes)
  | .notification message =>
    match SuccessorNotification.parse_notification untypedMsgType
        message.method message.params with
    | some (.error e) => .error e
    | some (.ok envelope) => .ok ([.notifyPredecessor envelope.notification], .yes)
    | none =>
      match send_notification_to_successor message with
      | .error e => .error e
      | .ok wrapped => .ok ([.notifySuccessor wrapped], .yes)

/-!
## Shared evaluation lemmas and sample values
-/

/-- The envelope body cast inverts the envelope body serialization. -/
theorem castSuccessorUntyped_successorBody (inner : UntypedMessage) (meta : Option Json) :
    castSuccessorUntyped (successorBody inner meta) = .ok (inner, meta) := by
  cases meta <;> rfl

/-- The MCP-over-ACP body cast inverts its serialization. -/
theorem castMcpOverAcpUntyped_mcpOverAcpBody (cid : String) (inner : UntypedMessage)
    (meta : Option Json) :
    castMcpOverAcpUntyped (mcpOverAcpBody cid inner meta) = .ok (cid, inner, meta) := by
  cases meta <;> rfl

/-- A sample embedded message (the spec's scenario 3 prompt request). -/
def sampleInner : UntypedMessage :=
  { method := "session/prompt", params := .obj [] }

/-- A sample successor envelope around `sampleInner`. -/
def sampleSuccessor : SuccessorRequest UntypedMessage :=
  { request := sampleInner, meta := none }

/-- A sample MCP-over-ACP envelope around `sampleInner`. -/
def sampleMcp : McpOverAcpRequest UntypedMessage :=
  { connection_id := "c1", request := sampleInner, meta := none }

/-!
## C1 — reserved wire method names
-/

/-- C1 counterexample: the claim says the successor envelope serializes
under method `_proxy/successor` and the MCP request envelope under
`_mcp/message`.  On concrete envelopes the code produces
`_proxy/successor/request` and `_mcp/request` instead, and parsing at
the spec's method strings matches nothing even on a well-formed body. -/
theorem C1_counterexample :
    SuccessorRequest.to_untyped_message untypedMsgType sampleSuccessor
      = .ok { method := "_proxy/successor/request", params := successorBody sampleInner none }
    ∧ "_proxy/successor/request" ≠ "_proxy/successor"
    ∧ McpOverAcpRequest.to_untyped_message untypedMsgType sampleMcp
      = .ok { method := "_mcp/request", params := mcpOverAcpBody "c1" sampleInner none }
    ∧ "_mcp/request" ≠ "_mcp/message"
    ∧ SuccessorRequest.parse_request untypedMsgType "_proxy/successor"
        (successorBody sampleInner none) = none
    ∧ McpOverAcpRequest.parse_request untypedMsgType "_mcp/message"
        (mcpOverAcpBody "c1" sampleInner none) = none := by
  refine ⟨rfl, by decide, rfl, by decide, rfl, rfl⟩

/-- C1 (amended): the reserved wire method names are
`_proxy/successor/request` for `SuccessorRequest` and `_mcp/request`
for `McpOverAcpRequest`: every serialization of either envelope carries
exactly that method string, and parsing of either envelope type matches
exactly that same string. -/
theorem C1_reserved_methods (T : MsgType α) (s : SuccessorRequest α)
    (r : McpOverAcpRequest α) (u v : UntypedMessage)
    (m₁ m₂ : String) (p₁ p₂ : Json)
    (hs : SuccessorRequest.to_untyped_message T s = .ok u)
    (hr : McpOverAcpRequest.to_untyped_message T r = .ok v)
    (hp₁ : (SuccessorRequest.parse_request T m₁ p₁).isSome = true)
    (hp₂ : (McpOverAcpRequest.parse_request T m₂ p₂).isSome = true) :
    u.method = SUCCESSOR_REQUEST_METHOD ∧ v.method = METHOD_MCP_REQUEST
    ∧ m₁ = SUCCESSOR_REQUEST_METHOD ∧ m₂ = METHOD_MCP_REQUEST := by
  refine ⟨?_, ?_, ?_, ?_⟩
  · unfold SuccessorRequest.to_untyped_message at hs
    cases h : T.toUntyped s.request with
    | error e => rw [h] at hs; cases hs
    | ok inner => rw [h] at hs; cases hs; rfl
  · unfold McpOverAcpRequest.to_untyped_message at hr
    cases h : T.toUntyped r.request with
    | error e => rw [h] at hr; cases hr
    | ok inner => rw [h] at hr; cases hr; rfl
  · unfold SuccessorRequest.parse_request at hp₁
    by_cases h : m₁ = SUCCESSOR_REQUEST_METHOD
    · exact h
    · simp [h] at hp₁
  · unfold McpOverAcpRequest.parse_request at hp₂
    by_cases h : m₂ = METHOD_MCP_REQUEST
    · exact h
    · simp [h] at hp₂

/-- C1 witness: the amended theorem applied at the concrete sample
envelopes and at well-formed bodies under the reserved methods. -/
theorem C1_reserved_methods_witness :
    (UntypedMessage.mk SUCCESSOR_REQUEST_METHOD (successorBody sampleInner none)).method
      = SUCCESSOR_REQUEST_METHOD
    ∧ (UntypedMessage.mk METHOD_MCP_REQUEST
        (mcpOverAcpBody "c1" sampleInner none)).method = METHOD_MCP_REQUEST
    ∧ SUCCESSOR_REQUEST_METHOD = SUCCESSOR_REQUEST_METHOD
    ∧ METHOD_MCP_REQUEST = METHOD_MCP_REQUEST :=
  C1_reserved_methods untypedMsgType sampleSuccessor sampleMcp
    (UntypedMessage.mk SUCCESSOR_REQUEST_METHOD (successorBody sampleInner none))
    (UntypedMessage.mk METHOD_MCP_REQUEST (mcpOverAcpBody "c1" sampleInner none))
    SUCCESSOR_REQUEST_METHOD METHOD_MCP_REQUEST
    (successorBody sampleInner none) (mcpOverAcpBody "c1" sampleInner none)
    rfl rfl rfl rfl

/-!
## C2 — parse as a partial function of the method string
-/

/-- Decode a JSON array of strings (helper for the sample codec). -/
def strList : List Json → Option (List String)
  | [] => some []
  | .str s :: rest => (strList rest).map (fun l => s :: l)
  | _ => none

/-- A concrete leaf codec for the modelled `InitializeRequest`,
standing in for the schema struct's derived serde impl (which lives
outside the provided sources); method name from
`schema/client_to_agent/requests.rs` line 22. -/
def sampleInitCodec : LeafType InitializeRequest :=
  { method := "initialize"
    encode := fun r =>
      .obj [("capabilities", .arr (r.metaCapabilities.map .str)), ("rest", r.rest)]
    decode := fun j =>
      match j.lookup "capabilities", j.lookup "rest" with
      | some (.arr caps), some rest =>
        match strList caps with
        | some l => .ok { metaCapabilities := l, rest := rest }
        | none => .error Error.invalid_params
      | _, _ => .error Error.invalid_params }

/-- C2 counterexample: for the envelope type
`SuccessorRequest<InitializeRequest>`, a message whose method string is
exactly the envelope's method name but whose embedded method is
`authenticate` parses to `None` — so parse is not a partial function of
the method string alone, and a matching method does not guarantee
`Some`. -/
theorem C2_counterexample :
    SuccessorRequest.parse_request sampleInitCodec.msgType SUCCESSOR_REQUEST_METHOD
      (successorBody { method := "authenticate", params := .obj [] } none) = none := by
  rfl

/-- C2 (amended): for a leaf message type, parse returns `None` exactly
when the method string mismatches, and a matching method always yields
`Some` (an `Ok` or a structured error).  For the envelope types, parse
returns `None` exactly when the outer method mismatches, or the outer
body casts successfully but the embedded method does not resolve to the
inner type. -/
theorem C2_parse_partiality (L : LeafType α) (T : MsgType β) (method : String) (params : Json) :
    (L.parse_request method params = none ↔ method ≠ L.method)
    ∧ (SuccessorRequest.parse_request T method params = none ↔
        (method ≠ SUCCESSOR_REQUEST_METHOD ∨
          ∃ inner meta, castSuccessorUntyped params = .ok (inner, meta) ∧
            T.parseRequest inner.method inner.params = none))
    ∧ (McpOverAcpRequest.parse_request T method params = none ↔
        (method ≠ METHOD_MCP_REQUEST ∨
          ∃ cid inner meta, castMcpOverAcpUntyped params = .ok (cid, inner, meta) ∧
            T.parseRequest inner.method inner.params = none)) := by
  refine ⟨?_, ?_, ?_⟩
  · unfold LeafType.parse_request
    by_cases h : method = L.method <;> simp [h]
  · unfold SuccessorRequest.parse_request
    by_cases h : method = SUCCESSOR_REQUEST_METHOD
    · simp only [h, if_pos rfl]
      cases hc : castSuccessorUntyped params with
      | error e => simp [hc]
      | ok im =>
        obtain ⟨inner, meta⟩ := im
        cases hp : T.parseRequest inner.method inner.params with
        | none => simp [hc, hp]
        | some r => cases r <;> simp_all
    · simp [h]
  · unfold McpOverAcpRequest.parse_request
    by_cases h : method = METHOD_MCP_REQUEST
    · simp only [h, if_pos rfl]
      cases hc : castMcpOverAcpUntyped params with
      | error e => simp [hc]
      | ok im =>
        obtain ⟨cid, inner, meta⟩ := im
        cases hp : T.parseRequest inner.method inner.params with
        | none =>
          simp only [hc, hp]
          constructor
          · intro _
            exact Or.inr ⟨cid, inner, meta, rfl, hp⟩
          · intro _
            rfl
        | some r => cases r <;> simp_all
    · simp [h]

/-- C2 witness: the amended theorem applied at the concrete sample
codec, the envelope method string and the counterexample body. -/
theorem C2_parse_partiality_witness :
    (LeafType.parse_request sampleInitCodec SUCCESSOR_REQUEST_METHOD
        (successorBody { method := "authenticate", params := .obj [] } none) = none
      ↔ SUCCESSOR_REQUEST_METHOD ≠ sampleInitCodec.method)
    ∧ (SuccessorRequest.parse_request sampleInitCodec.msgType SUCCESSOR_REQUEST_METHOD
        (successorBody { method := "authenticate", params := .obj [] } none) = none ↔
        (SUCCESSOR_REQUEST_METHOD ≠ SUCCESSOR_REQUEST_METHOD ∨
          ∃ inner meta, castSuccessorUntyped
              (successorBody { method := "authenticate", params := .obj [] } none)
              = .ok (inner, meta) ∧
            sampleInitCodec.msgType.parseRequest inner.method inner.params = none))
    ∧ (McpOverAcpRequest.parse_request sampleInitCodec.msgType SUCCESSOR_REQUEST_METHOD
        (successorBody { method := "authenticate", params := .obj [] } none) = none ↔
        (SUCCESSOR_REQUEST_METHOD ≠ METHOD_MCP_REQUEST ∨
          ∃ cid inner meta, castMcpOverAcpUntyped
              (successorBody { method := "authenticate", params := .obj [] } none)
              = .ok (cid, inner, meta) ∧
            sampleInitCodec.msgType.parseRequest inner.method inner.params = none)) :=
  C2_parse_partiality sampleInitCodec sampleInitCodec.msgType SUCCESSOR_REQUEST_METHOD
    (successorBody { method := "authenticate", params := .obj [] } none)

/-!
## C3 — typed request handler dispatch
-/

/-- Follows the amended claim's words: the typed request handler
invokes the callback iff the method matches and the body parses; when
the method matches but the body is malformed it surfaces the structured
parse error; otherwise (method mismatch, or a notification) it returns
the message unmodified as `Handled::No`. -/
def requestHandlerClaimSpec (L : LeafType α) (callback : α → Nat → Except Error Unit) :
    MessageCx → Except Error (HandledR MessageCx)
  | .request message requestCx =>
    if message.method = L.method then
      match L.decode message.params with
      | .ok req =>
        match callback req requestCx with
        | .ok () => .ok .yes
        | .error e => .error e
      | .error e => .error e
    else .ok (.no (.request message requestCx) false)
  | .notification message => .ok (.no (.notification message) false)

/-- C3 counterexample: an `initialize` request whose method matches the
handler's expected type but whose body is malformed.  The claim says
the handler should return the message unmodified as `Handled::No`; the
code instead surfaces the structured parse error. -/
theorem C3_counterexample :
    RequestHandler.handle_message sampleInitCodec.parse_request (fun _ _ => .ok ())
      (.request { method := "initialize", params := .str "bogus" } 7)
      = .error Error.invalid_params
    ∧ (Except.error Error.invalid_params
        ≠ Except.ok (HandledR.no
            (MessageCx.request { method := "initialize", params := .str "bogus" } 7) false)) := by
  exact ⟨rfl, fun h => Except.noConfusion h⟩

/-- C3 (amended): the typed request handler equals the spec-side
dispatch function — callback iff method matches and body parses;
structured error surfaced when the method matches but the body is
malformed; `Handled::No` with the unmodified message otherwise. -/
theorem C3_request_handler_dispatch (L : LeafType α)
    (callback : α → Nat → Except Error Unit) (messageCx : MessageCx) :
    RequestHandler.handle_message L.parse_request callback messageCx
      = requestHandlerClaimSpec L callback messageCx := by
  cases messageCx with
  | notification message => rfl
  | request message requestCx =>
    unfold RequestHandler.handle_message requestHandlerClaimSpec LeafType.parse_request
    by_cases h : message.method = L.method
    · simp only [h, if_pos rfl]
      cases L.decode message.params with
      | ok req => rfl
      | error e => rfl
    · simp [h]

/-- A concrete well-formed `initialize` wire message for witnesses. -/
def sampleInitMessage : UntypedMessage :=
  UntypedMessage.mk "initialize" (.obj [("capabilities", .arr []), ("rest", .null)])

/-- C3 witness: the amended theorem applied at the sample codec and a
concrete matching request. -/
theorem C3_request_handler_dispatch_witness :
    RequestHandler.handle_message sampleInitCodec.parse_request (fun _ _ => .ok ())
      (.request sampleInitMessage 3)
      = requestHandlerClaimSpec sampleInitCodec (fun _ _ => .ok ())
        (.request sampleInitMessage 3) :=
  C3_request_handler_dispatch sampleInitCodec (fun _ _ => .ok ())
    (.request sampleInitMessage 3)

/-!
## C4 — envelope transparency
-/

/-- Parsing a serialized successor envelope recovers it exactly
(embedded method, params and `meta` preserved). -/
theorem successor_roundtrip_untyped (s : SuccessorRequest UntypedMessage) :
    SuccessorRequest.parse_request untypedMsgType SUCCESSOR_REQUEST_METHOD
      (successorBody s.request s.meta) = some (.ok s) := by
  unfold SuccessorRequest.parse_request
  rw [if_pos rfl, castSuccessorUntyped_successorBody]
  rfl

/-- C4: for the Successor-style role pair (proxy → agent), wrapping and
unwrapping preserves the embedded method, params and `meta` exactly;
and both unwrap layers (the proxy's `ReceivesFromRole` impl and the
registry's `handle_successor_request`) re-wrap a declined message in an
envelope carrying the same embedded message returned by the inner
handler and the same original `meta`. -/
theorem C4_envelope_transparency (s : SuccessorRequest UntypedMessage)
    (w : UntypedMessage) (handler : InnerHandler) (cx cx' : Nat) (r : UntypedMessage)
    (op : UntypedMessage → Nat → Except Error (Handled (UntypedMessage × Nat)))
    (hw : SuccessorRequest.to_untyped_message untypedMsgType s = .ok w)
    (hh : handler (.request s.request cx) = .ok (.no (.request r cx')))
    (hop : op s.request cx = .ok (.no (r, cx'))) :
    SuccessorRequest.parse_request untypedMsgType w.method w.params = some (.ok s)
    ∧ AcpProxy.receive_message_from_agent handler (.request w cx)
        = .ok (.no (.rewrappedRequest { request := r, meta := s.meta } cx'))
    ∧ McpServiceRegistry.handle_successor_request s cx op
        = .ok (.no ({ request := r, meta := s.meta }, cx')) := by
  have hw' : w = UntypedMessage.mk SUCCESSOR_REQUEST_METHOD (successorBody s.request s.meta) := by
    unfold SuccessorRequest.to_untyped_message at hw
    cases hw
    rfl
  subst hw'
  have hparse := successor_roundtrip_untyped s
  refine ⟨hparse, ?_, ?_⟩
  · unfold AcpProxy.receive_message_from_agent
    simp only [hparse, hh]
  · unfold McpServiceRegistry.handle_successor_request
    simp only [hop]

/-- A sample successor envelope with a nontrivial `meta` value. -/
def sampleSuccessorMeta : SuccessorRequest UntypedMessage :=
  { request := sampleInner, meta := some (.str "m") }

/-- C4 witness: the theorem applied at a concrete envelope with a
`meta` value, an inner handler that declines unchanged, and the
identity-declining registry op. -/
theorem C4_envelope_transparency_witness :
    SuccessorRequest.parse_request untypedMsgType
      (UntypedMessage.mk SUCCESSOR_REQUEST_METHOD
        (successorBody sampleInner (some (.str "m")))).method
      (UntypedMessage.mk SUCCESSOR_REQUEST_METHOD
        (successorBody sampleInner (some (.str "m")))).params = some (.ok sampleSuccessorMeta)
    ∧ AcpProxy.receive_message_from_agent (fun mc => .ok (.no mc))
        (.request (UntypedMessage.mk SUCCESSOR_REQUEST_METHOD
          (successorBody sampleInner (some (.str "m")))) 5)
        = .ok (.no (.rewrappedRequest
            { request := sampleInner, meta := some (.str "m") } 5))
    ∧ McpServiceRegistry.handle_successor_request sampleSuccessorMeta 5
        (fun r c => .ok (.no (r, c)))
        = .ok (.no ({ request := sampleInner, meta := some (.str "m") }, 5)) :=
  C4_envelope_transparency sampleSuccessorMeta
    (UntypedMessage.mk SUCCESSOR_REQUEST_METHOD (successorBody sampleInner (some (.str "m"))))
    (fun mc => .ok (.no mc)) 5 5 sampleInner (fun r c => .ok (.no (r, c))) rfl rfl rfl

/-!
## C5 — chain fall-through
-/

/-- The scan's retry accumulator just ORs onto the final retry bit. -/
theorem runChainSpec_acc (hs : List Handler) (m : MessageCx) (acc : Bool) :
    runChainSpec hs m acc =
      match runChainSpec hs m false with
      | .ok (.no m' retry) => .ok (.no m' (acc || retry))
      | other => other := by
  induction hs generalizing m acc with
  | nil => simp [runChainSpec]
  | cons h hs ih =>
    unfold runChainSpec
    cases hres : h m with
    | error e => rfl
    | ok handled =>
      cases handled with
      | yes => rfl
      | no m' retry =>
        simp only [Bool.false_or, ih m' (acc || retry), ih m' retry]
        cases hrec : runChainSpec hs m' false with
        | error e => rfl
        | ok handled' =>
          cases handled' with
          | yes => rfl
          | no m'' retry' => simp [Bool.or_assoc]

/-- C5: a chain `[h1, …, hn, null]` built from `ChainedHandler` around
the terminal `NullHandler` computes the spec's fall-through scan: the
outcome is that of the first handler returning `Handled::Yes` on the
message as it falls through (later handlers are not consulted by the
scan), and if none claims it, `Handled::No` with the OR of all
handlers' retry bits; the terminal null handler itself always returns
`Handled::No { retry: false }`. -/
theorem C5_chain_fall_through (hs : List Handler) (m : MessageCx) :
    chainHandlers hs m = runChainSpec hs m false
    ∧ NullHandler.handle_message m = .ok (.no m false) := by
  constructor
  · induction hs generalizing m with
    | nil => rfl
    | cons h hs ih =>
      show ChainedHandler.handle_message h (chainHandlers hs) m = _
      unfold ChainedHandler.handle_message runChainSpec
      cases hres : h m with
      | error e => rfl
      | ok handled =>
        cases handled with
        | yes => rfl
        | no m' retry =>
          simp only [Bool.false_or, ih m', runChainSpec_acc hs m' retry]
          cases hrec : runChainSpec hs m' false with
          | error e => rfl
          | ok handled' =>
            cases handled' with
            | yes => rfl
            | no m'' retry' => rfl
  · rfl

/-- C5 witness: the theorem applied to a concrete two-handler chain
(one declining with `retry = true`, one declining with the message
unchanged) and a concrete message. -/
theorem C5_chain_fall_through_witness :
    chainHandlers [fun mc => .ok (.no mc true), fun mc => .ok (.no mc false)]
        (.notification sampleInner)
      = runChainSpec [fun mc => .ok (.no mc true), fun mc => .ok (.no mc false)]
        (.notification sampleInner) false
    ∧ NullHandler.handle_message (.notification sampleInner)
      = .ok (.no (.notification sampleInner) false) :=
  C5_chain_fall_through [fun mc => .ok (.no mc true), fun mc => .ok (.no mc false)]
    (.notification sampleInner)

/-!
## C6 — method-string round-trip
-/

/-- C6: parsing a typed message's serialization round-trips.  For a
leaf type (request or notification: both follow the same
`to_untyped_message` / method-keyed parse shape) this holds whenever
the payload codec round-trips, which is what the derived serde impls of
the schema structs provide; for the successor envelopes it holds
whenever the embedded type round-trips. -/
theorem C6_roundtrip (L : LeafType α) (a : α) (T : MsgType β)
    (s : SuccessorRequest β) (nt : SuccessorNotification β) (u un : UntypedMessage)
    (hL : L.decode (L.encode a) = .ok a)
    (hT : T.toUntyped s.request = .ok u)
    (hTp : T.parseRequest u.method u.params = some (.ok s.request))
    (hTn : T.toUntyped nt.notification = .ok un)
    (hTnp : T.parseRequest un.method un.params = some (.ok nt.notification)) :
    (∃ w, L.toUntypedMessage a = .ok w ∧ L.parse_request w.method w.params = some (.ok a))
    ∧ (∃ w, SuccessorRequest.to_untyped_message T s = .ok w ∧
        SuccessorRequest.parse_request T w.method w.params = some (.ok s))
    ∧ (∃ w, SuccessorNotification.to_untyped_message T nt = .ok w ∧
        SuccessorNotification.parse_notification T w.method w.params = some (.ok nt)) := by
  refine ⟨⟨⟨L.method, L.encode a⟩, rfl, ?_⟩, ?_, ?_⟩
  · unfold LeafType.parse_request
    rw [if_pos rfl, hL]
  · refine ⟨⟨SUCCESSOR_REQUEST_METHOD, successorBody u s.meta⟩, ?_, ?_⟩
    · unfold SuccessorRequest.to_untyped_message
      rw [hT]
    · unfold SuccessorRequest.parse_request
      rw [if_pos rfl, castSuccessorUntyped_successorBody]
      simp only [hTp]
  · refine ⟨⟨SUCCESSOR_NOTIFICATION_METHOD, successorBody un nt.meta⟩, ?_, ?_⟩
    · unfold SuccessorNotification.to_untyped_message
      rw [hTn]
    · unfold SuccessorNotification.parse_notification
      rw [if_pos rfl, castSuccessorUntyped_successorBody]
      simp only [hTnp]

/-- A sample modelled `InitializeRequest` value. -/
def sampleInitRequest : InitializeRequest :=
  { metaCapabilities := ["proxy"], rest := .null }

/-- A sample successor notification envelope. -/
def sampleSuccessorNotification : SuccessorNotification UntypedMessage :=
  { notification := sampleInner, meta := some .null }

/-- C6 witness: the round-trip theorem applied at the concrete sample
codec and sample envelopes. -/
theorem C6_roundtrip_witness :
    (∃ w, sampleInitCodec.toUntypedMessage sampleInitRequest = .ok w ∧
        sampleInitCodec.parse_request w.method w.params = some (.ok sampleInitRequest))
    ∧ (∃ w, SuccessorRequest.to_untyped_message untypedMsgType sampleSuccessor = .ok w ∧
        SuccessorRequest.parse_request untypedMsgType w.method w.params
          = some (.ok sampleSuccessor))
    ∧ (∃ w, SuccessorNotification.to_untyped_message untypedMsgType
          sampleSuccessorNotification = .ok w ∧
        SuccessorNotification.parse_notification untypedMsgType w.method w.params
          = some (.ok sampleSuccessorNotification)) :=
  C6_roundtrip sampleInitCodec sampleInitRequest untypedMsgType sampleSuccessor
    sampleSuccessorNotification sampleInner sampleInner rfl rfl rfl rfl rfl

/-!
## C7 — registry uniqueness and session/new interception
-/

/-- C7: registering under an already-registered name returns an error
(the pure registration function yields no new registry state, so the
registry is unchanged); a fresh name mints the `acp:<uuid>` url and
inserts the record; `session/new` handled by the registry comes back as
`Handled::No` with each registered server appended to `mcp_servers` as
`{name, url}` — the freshly added server included — the request context
and all other request fields unchanged. -/
theorem C7_registry (d d' : McpServiceRegistryData) (name uuid : String)
    (request : NewSessionRequest) (requestCx : Nat)
    (hdup : (d.get_registered_server_by_name name).isSome = true)
    (hfresh : d'.get_registered_server_by_name name = none) :
    d.add_mcp_server_internal name uuid
      = .error (Error.internal_error
          (String.append "Server with name " (String.append name " already exists")))
    ∧ d'.add_mcp_server_internal name uuid
      = .ok (d'.insert_registered_server { name := name, url := String.append "acp:" uuid })
    ∧ (match
        (d'.insert_registered_server
          { name := name, url := String.append "acp:" uuid }).handle_new_session_request
            request requestCx with
      | .ok (.no (request', requestCx')) =>
          requestCx' = requestCx ∧ request'.rest = request.rest ∧
          request'.mcp_servers = request.mcp_servers
            ++ McpServer.http name (String.append "acp:" uuid) []
              :: d'.registered_by_url.map (fun kv => kv.2.acp_mcp_server)
      | _ => False) := by
  refine ⟨?_, ?_, ?_⟩
  · unfold McpServiceRegistryData.add_mcp_server_internal
    rw [if_pos hdup]
  · unfold McpServiceRegistryData.add_mcp_server_internal
    rw [if_neg (by rw [hfresh]; simp)]
  · exact ⟨rfl, rfl, rfl⟩

/-- C7 witness: the theorem applied to a one-entry registry (duplicate
case) and the empty registry (fresh case), with the spec's scenario 5
server name. -/
theorem C7_registry_witness :
    McpServiceRegistryData.add_mcp_server_internal
        ⟨[("calc", ⟨"calc", "acp:OLD"⟩)], [("acp:OLD", ⟨"calc", "acp:OLD"⟩)]⟩ "calc" "CCC"
      = .error (Error.internal_error
          (String.append "Server with name " (String.append "calc" " already exists")))
    ∧ McpServiceRegistryData.add_mcp_server_internal ⟨[], []⟩ "calc" "CCC"
      = .ok (McpServiceRegistryData.insert_registered_server ⟨[], []⟩
          { name := "calc", url := String.append "acp:" "CCC" })
    ∧ (match
        (McpServiceRegistryData.insert_registered_server ⟨[], []⟩
          { name := "calc", url := String.append "acp:" "CCC" }).handle_new_session_request
            ⟨[], .null⟩ 20 with
      | .ok (.no (request', requestCx')) =>
          requestCx' = 20 ∧ request'.rest = (⟨[], .null⟩ : NewSessionRequest).rest ∧
          request'.mcp_servers = (⟨[], .null⟩ : NewSessionRequest).mcp_servers
            ++ McpServer.http "calc" (String.append "acp:" "CCC") []
              :: ([] : List (String × RegisteredMcpServer)).map (fun kv => kv.2.acp_mcp_server)
      | _ => False) :=
  C7_registry ⟨[("calc", ⟨"calc", "acp:OLD"⟩)], [("acp:OLD", ⟨"calc", "acp:OLD"⟩)]⟩ ⟨[], []⟩
    "calc" "CCC" ⟨[], .null⟩ 20 rfl rfl

/-!
## C8 — unclaimed requests and notifications
-/

/-- C8: the default message handler answers an unclaimed request with a
`MethodNotFound` error (code -32601) whose `data` is exactly the
request's method string, on that request's context; an unclaimed
notification produces no response. -/
theorem C8_unclaimed (message : UntypedMessage) (requestCx : Nat) :
    default_message_handler (.request message requestCx)
      = some (requestCx,
          { code := -32601, message := "Method not found", data := some (.str message.method) })
    ∧ default_message_handler (.notification message) = none := by
  exact ⟨rfl, rfl⟩

/-- C8 witness: the theorem applied to the spec's scenario 2 request
(`session/nope`, id 2). -/
theorem C8_unclaimed_witness :
    default_message_handler (.request ⟨"session/nope", .obj []⟩ 2)
      = some (2, Error.mk (-32601) "Method not found"
          (some (.str (UntypedMessage.mk "session/nope" (.obj [])).method)))
    ∧ default_message_handler (.notification ⟨"session/nope", .obj []⟩) = none :=
  C8_unclaimed ⟨"session/nope", .obj []⟩ 2

/-!
## C9 — the proxy capability gate on `initialize`
-/

/-- C9: an `initialize` request without the `Proxy` meta-capability is
answered locally with an `InvalidParams` error whose data is
"this command requires the proxy capability" and is not forwarded; with
the capability, the request forwarded to the successor is the original
with the capability removed, and a successful response has the
capability added back before delivery upstream (an error response
passes through). -/
theorem C9_initialize_gate (r₁ r₂ : InitializeRequest) (resp : InitializeResponse)
    (err : Error)
    (h₁ : r₁.has_meta_capability proxyCapability = false)
    (h₂ : r₂.has_meta_capability proxyCapability = true) :
    ProxyHandler.forward_initialize r₁
      = .respondError (Error.invalid_params.with_data
          (.str "this command requires the proxy capability"))
    ∧ ProxyHandler.forward_initialize r₂
      = .forwardToSuccessor (r₂.remove_meta_capability proxyCapability)
    ∧ ProxyHandler.initialize_result_responder (.ok resp)
      = .ok (resp.add_meta_capability proxyCapability)
    ∧ ProxyHandler.initialize_result_responder (.error err) = .error err := by
  refine ⟨?_, ?_, rfl, rfl⟩
  · unfold ProxyHandler.forward_initialize
    rw [if_pos (by rw [h₁]; simp)]
  · unfold ProxyHandler.forward_initialize
    rw [if_neg (by rw [h₂]; simp)]

/-- C9 witness: the theorem applied to concrete requests without and
with the proxy capability. -/
theorem C9_initialize_gate_witness :
    ProxyHandler.forward_initialize { metaCapabilities := [], rest := .null }
      = .respondError (Error.invalid_params.with_data
          (.str "this command requires the proxy capability"))
    ∧ ProxyHandler.forward_initialize { metaCapabilities := ["proxy"], rest := .null }
      = .forwardToSuccessor
          (InitializeRequest.remove_meta_capability
            { metaCapabilities := ["proxy"], rest := .null } proxyCapability)
    ∧ ProxyHandler.initialize_result_responder
        (.ok { metaCapabilities := [], rest := .null })
      = .ok (InitializeResponse.add_meta_capability
          { metaCapabilities := [], rest := .null } proxyCapability)
    ∧ ProxyHandler.initialize_result_responder (.error Error.invalid_params)
      = .error Error.invalid_params :=
  C9_initialize_gate { metaCapabilities := [], rest := .null }
    { metaCapabilities := ["proxy"], rest := .null }
    { metaCapabilities := [], rest := .null } Error.invalid_params rfl rfl

/-!
## C10 — the default proxy handler is total
-/

/-- The proxy handler's outcome never declines: it is `Handled::Yes`
or an error. -/
def neverDeclines (out : Except Error (List ProxyEffect × Handled MessageCx)) : Prop :=
  match out with
  | .ok (_, handled) => handled = .yes
  | .error _ => True

/-- C10: the default proxy handler is total — for every message it
returns `Handled::Yes` or an error, never `Handled::No`.  A request
parsing as a successor envelope is unwrapped and re-sent toward the
predecessor with its response forwarded to the original request
context; any other non-`initialize` request is wrapped in a successor
envelope and sent to the successor with its response likewise bound to
the original context; notifications route the same way without a
response. -/
theorem C10_proxy_total (initCodec : LeafType InitializeRequest) (messageCx : MessageCx)
    (m₁ m₂ n₁ n₂ : UntypedMessage) (cx₁ cx₂ : Nat)
    (envelope : SuccessorRequest UntypedMessage)
    (envelopeN : SuccessorNotification UntypedMessage)
    (hp : SuccessorRequest.parse_request untypedMsgType m₁.method m₁.params
      = some (.ok envelope))
    (hn : SuccessorRequest.parse_request untypedMsgType m₂.method m₂.params = none)
    (hi : initCodec.parse_request m₂.method m₂.params = none)
    (hpn : SuccessorNotification.parse_notification untypedMsgType n₁.method n₁.params
      = some (.ok envelopeN))
    (hnn : SuccessorNotification.parse_notification untypedMsgType n₂.method n₂.params
      = none) :
    neverDeclines (ProxyHandler.handle_message initCodec messageCx)
    ∧ ProxyHandler.handle_message initCodec (.request m₁ cx₁)
      = .ok ([.sendRequestToPredecessor envelope.request], .yes)
    ∧ ProxyHandler.handle_message initCodec (.request m₂ cx₂)
      = .ok ([.sendRequestToSuccessor
          (UntypedMessage.mk SUCCESSOR_REQUEST_METHOD (successorBody m₂ none))], .yes)
    ∧ ProxyHandler.handle_message initCodec (.notification n₁)
      = .ok ([.notifyPredecessor envelopeN.notification], .yes)
    ∧ ProxyHandler.handle_message initCodec (.notification n₂)
      = .ok ([.notifySuccessor
          (UntypedMessage.mk SUCCESSOR_NOTIFICATION_METHOD (successorBody n₂ none))], .yes) := by
  refine ⟨?_, ?_, ?_, ?_, ?_⟩
  · cases messageCx with
    | request message requestCx =>
      simp only [ProxyHandler.handle_message]
      cases SuccessorRequest.parse_request untypedMsgType message.method message.params with
      | some r =>
        cases r with
        | error e => simp [neverDeclines]
        | ok envelope' => rfl
      | none =>
        cases initCodec.parse_request message.method message.params with
        | some r =>
          cases r with
          | error e => simp [neverDeclines]
          | ok request =>
            cases hf : ProxyHandler.forward_initialize request with
            | respondError e => simp [neverDeclines, hf]
            | forwardToSuccessor r => simp [neverDeclines, hf]
        | none => rfl
    | notification message =>
      simp only [ProxyHandler.handle_message]
      cases SuccessorNotification.parse_notification untypedMsgType
          message.method message.params with
      | some r =>
        cases r with
        | error e => simp [neverDeclines]
        | ok envelope' => rfl
      | none => rfl
  · unfold ProxyHandler.handle_message
    simp only [hp]
  · unfold ProxyHandler.handle_message
    simp only [hn, hi]
    rfl
  · unfold ProxyHandler.handle_message
    simp only [hpn]
  · unfold ProxyHandler.handle_message
    simp only [hnn]
    rfl

/-- A concrete wrapped sample request for the C10 witness. -/
def sampleWrappedRequest : UntypedMessage :=
  UntypedMessage.mk SUCCESSOR_REQUEST_METHOD (successorBody sampleInner none)

/-- A concrete wrapped sample notification for the C10 witness. -/
def sampleWrappedNotification : UntypedMessage :=
  UntypedMessage.mk SUCCESSOR_NOTIFICATION_METHOD (successorBody sampleInner none)

/-- C10 witness: the theorem applied to concrete wrapped and unwrapped
requests and notifications under the sample `initialize` codec. -/
theorem C10_proxy_total_witness :
    neverDeclines (ProxyHandler.handle_message sampleInitCodec
      (.request sampleWrappedRequest 1))
    ∧ ProxyHandler.handle_message sampleInitCodec (.request sampleWrappedRequest 1)
      = .ok ([.sendRequestToPredecessor sampleSuccessor.request], .yes)
    ∧ ProxyHandler.handle_message sampleInitCodec (.request sampleInner 2)
      = .ok ([.sendRequestToSuccessor
          (UntypedMessage.mk SUCCESSOR_REQUEST_METHOD (successorBody sampleInner none))], .yes)
    ∧ ProxyHandler.handle_message sampleInitCodec (.notification sampleWrappedNotification)
      = .ok ([.notifyPredecessor
          (SuccessorNotification.notification
            (SuccessorNotification.mk (α := UntypedMessage) sampleInner none))], .yes)
    ∧ ProxyHandler.handle_message sampleInitCodec (.notification sampleInner)
      = .ok ([.notifySuccessor
          (UntypedMessage.mk SUCCESSOR_NOTIFICATION_METHOD
            (successorBody sampleInner none))], .yes) :=
  C10_proxy_total sampleInitCodec (.request sampleWrappedRequest 1)
    sampleWrappedRequest sampleInner sampleWrappedNotification sampleInner 1 2
    sampleSuccessor (SuccessorNotification.mk sampleInner none)
    rfl rfl rfl rfl rfl
